import Mathlib

/-!
Verification of the room-lifecycle and presence-coordination subsystem of the
ghostly-backend chat server.

The Python source (`server.py`, `socketio_server.py`) is shallowly embedded:
the MongoDB collections `chat_rooms` and `room_messages` become lists inside a
`DB` structure, each REST handler becomes a pure function from the current
database (and the current wall-clock time, in whole seconds) to an
outcome together with the updated database and the list of Socket.IO events it
emits, and the in-memory presence registry of `socketio_server.py` becomes a
`PresenceState` structure.  Times (`created_at`, `expires_at`, `banned_until`,
`now`) are natural numbers of seconds; the 12-hour room TTL is 43200 seconds
and the 5-minute ban is 300 seconds, as in the source.
-/

namespace Ghostly

/-- A ban entry embedded in a room document: a user_id with its banned_until time. -/
structure BanEntry where
  user_id : String
  banned_until : Nat
deriving Repr, DecidableEq

/-- A `chat_rooms` document as created by `create_room` in `server.py`.
`expires_at` is optional because legacy rooms may lack the field (the startup
reconciliation backfills it). -/
structure Room where
  id : String
  name : String
  is_public : Bool
  creator_id : String
  admin_id : String
  members : List String
  password : Option String
  max_members : Option Nat
  banned_users : List BanEntry
  created_at : Nat
  expires_at : Option Nat
deriving Repr, DecidableEq

/-- A `room_messages` document. -/
structure RoomMessage where
  room_id : String
  user_id : String
  username : String
  message : String
  created_at : Nat
deriving Repr, DecidableEq

/-- The two MongoDB collections the room subsystem mutates. -/
structure DB where
  chat_rooms : List Room
  room_messages : List RoomMessage
deriving Repr, DecidableEq

/-- An HTTP error as raised by `HTTPException(status_code, detail)`. -/
structure HTTPError where
  status : Nat
  detail : String
deriving Repr, DecidableEq

instance {ε α : Type} [DecidableEq ε] [DecidableEq α] : DecidableEq (Except ε α) := by
  intro a b
  cases a with
  | error ea =>
    cases b with
    | error eb =>
      exact match decEq ea eb with
        | isTrue h => isTrue (by rw [h])
        | isFalse h => isFalse (by intro hc; cases hc; exact h rfl)
    | ok vb => exact isFalse (by intro hc; cases hc)
  | ok va =>
    cases b with
    | error eb => exact isFalse (by intro hc; cases hc)
    | ok vb =>
      exact match decEq va vb with
        | isTrue h => isTrue (by rw [h])
        | isFalse h => isFalse (by intro hc; cases hc; exact h rfl)

/-- Socket.IO events emitted by the room endpoints. -/
inductive Event where
  | roomExpired (room_id : String)
  | roomListUpdated (action : String) (room_id : String)
  | roomDeleted (room_id : String)
  | userKicked (room_id : String) (user_id : String) (banned_until : Nat)
  | messagesCleared (room_id : String) (kicked_user_id : String)
  | adminTransferred (room_id : String) (new_admin_id : String)
deriving Repr, DecidableEq

/-- Mongo find_one on the chat_rooms collection by document id. -/
def findRoom (db : DB) (rid : String) : Option Room :=
  db.chat_rooms.find? (fun r => r.id == rid)

/-- Mongo update_one on the chat_rooms collection by id: apply `f` to every
room document whose id is `rid` (there is at most one in a real database). -/
def updateRoom (db : DB) (rid : String) (f : Room → Room) : DB :=
  { db with chat_rooms := db.chat_rooms.map (fun r => if r.id == rid then f r else r) }

/-- Mongo delete_one on the chat_rooms collection by id. -/
def deleteRoom (db : DB) (rid : String) : DB :=
  { db with chat_rooms := db.chat_rooms.filter (fun r => !(r.id == rid)) }

/-- Mongo delete_many on the room_messages collection by room id. -/
def deleteRoomMessages (db : DB) (rid : String) : DB :=
  { db with room_messages := db.room_messages.filter (fun m => !(m.room_id == rid)) }

/-- The addToSet update of `uid` into the members of room `rid`. -/
def addToSetMember (db : DB) (rid : String) (uid : String) : DB :=
  updateRoom db rid (fun r =>
    { r with members := if r.members.contains uid then r.members else r.members ++ [uid] })

/-- The pull update removing `uid` from the members of room `rid`. -/
def pullMember (db : DB) (rid : String) (uid : String) : DB :=
  updateRoom db rid (fun r => { r with members := r.members.filter (fun m => !(m == uid)) })

/-- The pull update on the banned_users of room `rid`: removes every ban
entry whose user_id is `uid`. -/
def pullBans (db : DB) (rid : String) (uid : String) : DB :=
  updateRoom db rid (fun r =>
    { r with banned_users := r.banned_users.filter (fun b => !(b.user_id == uid)) })

/-- The set update writing `exp` into the expires_at of room `rid`. -/
def setExpiresAt (db : DB) (rid : String) (exp : Nat) : DB :=
  updateRoom db rid (fun r => { r with expires_at := some exp })

/-! ### GET on a single room (`get_room`, server.py lines 579-601)

The handler fetches the room; absent rooms give 404.  If the stored document
carries an `expires_at` at or before now, the handler deletes the room and its
messages and raises 410 "Room has expired".  State mutations in the Python
handler are persisted before the exception is raised, so the function returns
the outcome together with the (possibly mutated) database. -/

def get_room (db : DB) (rid : String) (now : Nat) : Except HTTPError Room × DB :=
  match findRoom db rid with
  | none => (Except.error ⟨404, "Room not found"⟩, db)
  | some room =>
    match room.expires_at with
    | some exp =>
      if exp ≤ now then
        (Except.error ⟨410, "Room has expired"⟩, deleteRoomMessages (deleteRoom db rid) rid)
      else
        (Except.ok room, db)
    | none => (Except.ok room, db)

/-! ### POST join on a room (`join_room`, server.py lines 607-675) -/

/-- The 403 detail string built by `join_room` for an active ban, giving
the remaining time as minutes and seconds. -/
def banMessage (remaining : Nat) : String :=
  "You are banned from this room for " ++ toString (remaining / 60) ++ "m "
    ++ toString (remaining % 60) ++ "s"

/-- The ban loop of `join_room`: iterate over the snapshot's `banned_users`;
at a matching entry whose `banned_until` is still in the future raise 403 with
the remaining time; at a matching expired entry persist a `$pull` of all of
this user's ban entries and continue. -/
def processBans (rid uid : String) (now : Nat) : DB → List BanEntry → Except HTTPError Unit × DB
  | db, [] => (Except.ok (), db)
  | db, ban :: rest =>
    if ban.user_id == uid then
      if now < ban.banned_until then
        (Except.error ⟨403, banMessage (ban.banned_until - now)⟩, db)
      else
        processBans rid uid now (pullBans db rid uid) rest
    else
      processBans rid uid now db rest

/-- `if room.get("password") and room.get("password") != request.password`:
Python truthiness makes `None` and the empty string behave as "no password";
a set password mismatches a missing request password. -/
def passwordMismatch (roomPw reqPw : Option String) : Bool :=
  match roomPw with
  | none => false
  | some p =>
    if p == "" then false
    else
      match reqPw with
      | none => true
      | some q => !(p == q)

/-- `if room.get("max_members") and len(room.get("members", [])) >= room["max_members"]`:
`None` and `0` are falsy, so they disable the capacity check. -/
def capacityFull (maxMembers : Option Nat) (memberCount : Nat) : Bool :=
  match maxMembers with
  | none => false
  | some m => if m == 0 then false else decide (m ≤ memberCount)

/-- The membership phase of `join_room`, entered after the ban loop: an
existing member succeeds immediately; otherwise password then capacity are
checked against the snapshot `room` and the user is `$addToSet`-ed into the
members.  The `room_list_updated(member_joined)` broadcast is emitted on every
successful return, in both branches. -/
def joinMembership (db : DB) (room : Room) (rid uid : String) (pw : Option String) :
    Except HTTPError Unit × DB × List Event :=
  if room.members.contains uid then
    (Except.ok (), db, [Event.roomListUpdated "member_joined" rid])
  else if passwordMismatch room.password pw then
    (Except.error ⟨403, "Invalid password"⟩, db, [])
  else if capacityFull room.max_members room.members.length then
    (Except.error ⟨403, "Room is full"⟩, db, [])
  else
    (Except.ok (), addToSetMember db rid uid, [Event.roomListUpdated "member_joined" rid])

/-- `join_room`: fetch the room (404 if absent), run the ban loop on the
snapshot's ban list, then the membership phase. -/
def join_room (db : DB) (rid uid : String) (pw : Option String) (now : Nat) :
    Except HTTPError Unit × DB × List Event :=
  match findRoom db rid with
  | none => (Except.error ⟨404, "Room not found"⟩, db, [])
  | some room =>
    match processBans rid uid now db room.banned_users with
    | (Except.error e, db1) => (Except.error e, db1, [])
    | (Except.ok _, db1) => joinMembership db1 room rid uid pw

/-! ### POST leave on a room (`leave_room`, server.py lines 680-725)

Returns the `room_deleted` flag of the JSON response. -/

def leave_room (db : DB) (rid uid : String) : Except HTTPError Bool × DB × List Event :=
  match findRoom db rid with
  | none => (Except.error ⟨404, "Room not found"⟩, db, [])
  | some room =>
    if room.admin_id == uid then
      (Except.ok true, deleteRoomMessages (deleteRoom db rid) rid,
        [Event.roomDeleted rid, Event.roomListUpdated "deleted" rid])
    else
      (Except.ok false, pullMember db rid uid,
        [Event.roomListUpdated "member_left" rid])

/-! ### DELETE on a room (`delete_room`, server.py lines 730-750) -/

def delete_room (db : DB) (rid uid : String) : Except HTTPError Unit × DB × List Event :=
  match findRoom db rid with
  | none => (Except.error ⟨404, "Room not found"⟩, db, [])
  | some room =>
    if !(room.admin_id == uid) then
      (Except.error ⟨403, "Only admin can delete room"⟩, db, [])
    else
      (Except.ok (), deleteRoomMessages (deleteRoom db rid) rid,
        [Event.roomDeleted rid])

/-! ### POST kick on a room (`kick_user`, server.py lines 762-826)

Returns `(messages_deleted, banned_until)` from the JSON response. -/

def kick_user (db : DB) (rid admin_id target : String) (now : Nat) :
    Except HTTPError (Nat × Nat) × DB × List Event :=
  match findRoom db rid with
  | none => (Except.error ⟨404, "Room not found"⟩, db, [])
  | some room =>
    if !(room.admin_id == admin_id) then
      (Except.error ⟨403, "Only admin can kick users"⟩, db, [])
    else if !(room.members.contains target) then
      (Except.error ⟨400, "User not in room"⟩, db, [])
    else if target == admin_id then
      (Except.error ⟨400, "Cannot kick yourself"⟩, db, [])
    else
      let deletedCount :=
        (db.room_messages.filter (fun m => m.room_id == rid && m.user_id == target)).length
      let db1 :=
        { db with room_messages :=
            db.room_messages.filter (fun m => !(m.room_id == rid && m.user_id == target)) }
      let banUntil := now + 300
      let db2 := updateRoom db1 rid (fun r =>
        { r with members := r.members.filter (fun m => !(m == target)),
                 banned_users := r.banned_users ++ [⟨target, banUntil⟩] })
      (Except.ok (deletedCount, banUntil), db2,
        [Event.userKicked rid target banUntil,
         Event.roomListUpdated "member_kicked" rid,
         Event.messagesCleared rid target])

/-! ### Expiry timer (`schedule_room_deletion`, server.py lines 86-124)

The coroutine sleeps until `expires_at` and then runs its deletion body; only
that body is modelled here, as the state transition performed when the timer
fires.  It re-fetches the room by id: if absent it is a no-op, otherwise it
deletes the room and its messages and broadcasts the two expiry events. -/

def schedule_room_deletion_fire (db : DB) (rid : String) : DB × List Event :=
  match findRoom db rid with
  | none => (db, [])
  | some _ =>
    (deleteRoomMessages (deleteRoom db rid) rid,
      [Event.roomExpired rid, Event.roomListUpdated "expired" rid])

/-! ### Startup reconciliation (`startup_db_indexes`, server.py lines 1016-1079)

The per-room body of the startup loop: backfill a missing `expires_at` as
`created_at + 12h`, delete already-expired rooms immediately, otherwise arm a
one-shot deletion timer targeting `expires_at`.  Armed timers are returned as
`(room_id, expires_at)` pairs. -/

def reconcileRoom (now : Nat) (db : DB) (room : Room) : DB × List (String × Nat) :=
  match room.expires_at with
  | none =>
    let exp := room.created_at + 43200
    let db1 := setExpiresAt db room.id exp
    if exp ≤ now then
      (deleteRoomMessages (deleteRoom db1 room.id) room.id, [])
    else
      (db1, [(room.id, exp)])
  | some exp =>
    if exp ≤ now then
      (deleteRoomMessages (deleteRoom db room.id) room.id, [])
    else
      (db, [(room.id, exp)])

/-- The startup loop over the snapshot of all persisted rooms. -/
def startupReconcile (now : Nat) (db : DB) : DB × List (String × Nat) :=
  db.chat_rooms.foldl
    (fun acc room =>
      let step := reconcileRoom now acc.1 room
      (step.1, acc.2 ++ step.2))
    (db, [])

/-! ### Presence registry (`socketio_server.py`)

The module-level dicts `connected_users` (user_id to sid),
`user_sessions` (sid to user data) and the set `online_users` are modelled as
association lists inside `PresenceState`.  Payload fields arrive as
`data.get(...)`, i.e. possibly `None`, so they are `Option String` and Python
truthiness (`None` and `""` are falsy) is modelled by `truthy`.  Keys of
`connected_users` and elements of `online_users` are `Option String` because
the handler writes `data.get('user_id')` into them unconditionally. -/

/-- Python truthiness of an optional string. -/
def truthy : Option String → Bool
  | none => false
  | some s => !(s == "")

/-- The identity fields `set_nickname` stores into `user_sessions[sid]`. -/
structure SessionInfo where
  user_id : Option String
  username : Option String
deriving Repr, DecidableEq

/-- The in-memory presence registry. -/
structure PresenceState where
  connected_users : List (Option String × String)
  user_sessions : List (String × SessionInfo)
  online_users : List (Option String)
deriving Repr, DecidableEq

/-- Dict lookup. -/
def assocGet {α β : Type} [BEq α] (l : List (α × β)) (k : α) : Option β :=
  (l.find? (fun p => p.1 == k)).map (fun p => p.2)

/-- Dict assignment: replace in place if the key is present, else append. -/
def assocSet {α β : Type} [BEq α] (l : List (α × β)) (k : α) (v : β) : List (α × β) :=
  if (l.find? (fun p => p.1 == k)).isSome then
    l.map (fun p => if p.1 == k then (k, v) else p)
  else
    l ++ [(k, v)]

/-- Dict `pop(k, None)`. -/
def assocErase {α β : Type} [BEq α] (l : List (α × β)) (k : α) : List (α × β) :=
  l.filter (fun p => !(p.1 == k))

/-- `online_users.add(u)`. -/
def addOnline (l : List (Option String)) (u : Option String) : List (Option String) :=
  if l.contains u then l else l ++ [u]

/-- Effects the presence handlers perform on the transport. -/
inductive PEffect where
  | forceDisconnect (sid : String)
  | enterRoom (sid : String) (room_name : String)
  | emitUserOnline (user_id : Option String) (nickname : Option String)
  | emitUserOffline (user_id : Option String) (nickname : Option String)
  | emitOnlineUsers (sid : String) (users : List (Option String))
deriving Repr, DecidableEq

/-- The personal channel name, the string user_ followed by the user id
(Python formats `None` as the string `"None"`). -/
def userChannel : Option String → String
  | some s => "user_" ++ s
  | none => "user_None"

/-- The `connect` handler: store a bare session for the new connection. -/
def connectHandler (st : PresenceState) (sid : String) : PresenceState :=
  { st with user_sessions := assocSet st.user_sessions sid ⟨none, none⟩ }

/-- The `disconnect` handler (socketio_server.py lines 95-121): look up the
session bound to `sid`; if its `user_id` is truthy, pop it from
`connected_users` and the online set; always pop the session; emit
`user_offline` when both identity fields are truthy. -/
def disconnectHandler (st : PresenceState) (sid : String) : PresenceState × List PEffect :=
  match assocGet st.user_sessions sid with
  | none => (st, [])
  | some sess =>
    let st1 :=
      if truthy sess.user_id then
        { st with connected_users := assocErase st.connected_users sess.user_id,
                  online_users := st.online_users.filter (fun u => !(u == sess.user_id)) }
      else st
    let st2 := { st1 with user_sessions := assocErase st1.user_sessions sid }
    let effs :=
      if truthy sess.user_id && truthy sess.username then
        [PEffect.emitUserOffline sess.user_id sess.username]
      else []
    (st2, effs)

/-- The `set_nickname` handler (socketio_server.py lines 49-93): refresh the
session when both fields are truthy; if `user_id` is already a key of
`connected_users` and the old sid still has a session, `await
sio.disconnect(old_sid)` — modelled as a `forceDisconnect` effect followed by
the `disconnect` handler's state transition — then record the new binding,
mark the user online, join the personal channel, broadcast `user_online`, and
send the caller the online list excluding itself. -/
def set_nickname (st : PresenceState) (sid : String) (nickname user_id : Option String) :
    PresenceState × List PEffect :=
  let st1 :=
    if truthy nickname && truthy user_id then
      { st with user_sessions := assocSet st.user_sessions sid ⟨user_id, nickname⟩ }
    else st
  let evicted :=
    match assocGet st1.connected_users user_id with
    | some old_sid =>
      if (assocGet st1.user_sessions old_sid).isSome then
        let d := disconnectHandler st1 old_sid
        (d.1, PEffect.forceDisconnect old_sid :: d.2)
      else (st1, ([] : List PEffect))
    | none => (st1, [])
  let st3 :=
    { evicted.1 with
        connected_users := assocSet evicted.1.connected_users user_id sid,
        online_users := addOnline evicted.1.online_users user_id }
  let onlineList := st3.online_users.filter (fun u => !(u == user_id))
  (st3, evicted.2 ++
    [PEffect.enterRoom sid (userChannel user_id),
     PEffect.emitUserOnline user_id nickname,
     PEffect.emitOnlineUsers sid onlineList])

/-! ### Concrete example data, used by the witnesses and counterexamples -/

/-- A room with a password, a capacity of 2 already reached, and a ban on
user `c` until time 1000. -/
def roomA : Room :=
  { id := "r1", name := "general", is_public := true, creator_id := "a",
    admin_id := "a", members := ["a", "b"], password := some "pw", max_members := some 2,
    banned_users := [⟨"c", 1000⟩], created_at := 0, expires_at := some 43200 }

/-- A database holding `roomA`, two of its messages (one by `b`), and one
message of an unrelated room. -/
def dbA : DB :=
  { chat_rooms := [roomA],
    room_messages :=
      [⟨"r1", "b", "b", "hi", 5⟩, ⟨"r1", "a", "a", "yo", 6⟩, ⟨"r2", "b", "b", "x", 7⟩] }

/-- An unrestricted room (no password, no capacity, no bans) whose
`expires_at` is already in the past at time 100. -/
def roomOpen : Room :=
  { id := "rx", name := "open", is_public := true, creator_id := "a",
    admin_id := "a", members := ["a"], password := none, max_members := none,
    banned_users := [], created_at := 0, expires_at := some 5 }

/-- A database holding only `roomOpen`. -/
def dbOpen : DB :=
  { chat_rooms := [roomOpen], room_messages := [⟨"rx", "a", "a", "m", 1⟩] }

/-- A legacy room lacking the `expires_at` field. -/
def roomLegacy : Room :=
  { id := "rL", name := "old", is_public := true, creator_id := "a", admin_id := "a",
    members := ["a"], password := none, max_members := none, banned_users := [],
    created_at := 10, expires_at := none }

/-- A database holding only `roomLegacy` and one of its messages. -/
def dbLegacy : DB :=
  { chat_rooms := [roomLegacy], room_messages := [⟨"rL", "a", "a", "m", 11⟩] }

/-- A presence state in which user `u1` is bound to live connection `s1`. -/
def pStA : PresenceState :=
  { connected_users := [(some "u1", "s1")],
    user_sessions := [("s1", ⟨some "u1", some "nick"⟩)],
    online_users := [some "u1"] }

/-! ### Helper lemmas -/

theorem find_map_pred {α : Type} (g : α → α) (p : α → Bool)
    (hp : ∀ a, p (g a) = p a) (l : List α) :
    (l.map g).find? p = (l.find? p).map g := by
  induction l with
  | nil => rfl
  | cons a t ih =>
    by_cases hpa : p a = true
    · have hga : p (g a) = true := by rw [hp]; exact hpa
      simp [List.find?_cons_of_pos, hpa, hga]
    · have hga : ¬ p (g a) = true := by rw [hp]; exact hpa
      simp only [List.map_cons, List.find?_cons_of_neg _ hga, List.find?_cons_of_neg _ hpa]
      exact ih

theorem filter_filter_not {α : Type} (p : α → Bool) (l : List α) :
    (l.filter (fun a => !(p a))).filter p = [] := by
  induction l with
  | nil => rfl
  | cons a t ih =>
    by_cases h : p a = true
    · simp [List.filter_cons, h, ih]
    · simp [List.filter_cons, h, ih]

theorem room_id_of_findRoom {db : DB} {rid : String} {room : Room}
    (h : findRoom db rid = some room) : room.id = rid := by
  have := List.find?_some h
  simpa using this

theorem findRoom_updateRoom (db : DB) (rid : String) (f : Room → Room)
    (hf : ∀ r, (f r).id = r.id) :
    findRoom (updateRoom db rid f) rid =
      (findRoom db rid).map (fun r => if r.id == rid then f r else r) := by
  unfold findRoom updateRoom
  apply find_map_pred
  intro a
  by_cases h : (a.id == rid) = true
  · simp [h, hf]
  · simp [h]

theorem findRoom_updateRoom_some {db : DB} {rid : String} {room : Room} (f : Room → Room)
    (hf : ∀ r, (f r).id = r.id) (h : findRoom db rid = some room) :
    findRoom (updateRoom db rid f) rid = some (f room) := by
  rw [findRoom_updateRoom db rid f hf, h]
  have hid : (room.id == rid) = true := by
    simp [room_id_of_findRoom h]
  simp only [Option.map_some', if_pos hid]

theorem findRoom_deleteRoom (db : DB) (rid : String) :
    findRoom (deleteRoom db rid) rid = none := by
  unfold findRoom deleteRoom
  rw [List.find?_eq_none]
  intro x hx
  have := (List.mem_filter.mp hx).2
  simpa using this

theorem findRoom_deleteRoomMessages (db : DB) (rid rid' : String) :
    findRoom (deleteRoomMessages db rid') rid = findRoom db rid := rfl

theorem deleteRoomMessages_filter (db : DB) (rid : String) :
    (deleteRoomMessages db rid).room_messages.filter (fun m => m.room_id == rid) = [] :=
  filter_filter_not _ _

theorem processBans_cons_match (rid uid : String) (now : Nat) (db : DB) (b : BanEntry)
    (t : List BanEntry) (hb : (b.user_id == uid) = true) :
    processBans rid uid now db (b :: t) =
      if now < b.banned_until then
        (Except.error ⟨403, banMessage (b.banned_until - now)⟩, db)
      else
        processBans rid uid now (pullBans db rid uid) t := by
  simp only [processBans]
  rw [if_pos hb]

theorem processBans_cons_other (rid uid : String) (now : Nat) (db : DB) (b : BanEntry)
    (t : List BanEntry) (hb : ¬ (b.user_id == uid) = true) :
    processBans rid uid now db (b :: t) = processBans rid uid now db t := by
  simp only [processBans]
  rw [if_neg hb]

theorem processBans_no_match (rid uid : String) (now : Nat) (l : List BanEntry) :
    ∀ db : DB, l.filter (fun b => b.user_id == uid) = [] →
      processBans rid uid now db l = (Except.ok (), db) := by
  induction l with
  | nil => intro db _; rfl
  | cons b t ih =>
    intro db hl
    simp only [List.filter_cons] at hl
    by_cases hb : (b.user_id == uid) = true
    · rw [if_pos hb] at hl
      exact absurd hl (List.cons_ne_nil _ _)
    · rw [if_neg hb] at hl
      rw [processBans_cons_other rid uid now db b t hb]
      exact ih db hl

theorem processBans_single (rid uid : String) (now : Nat) (l : List BanEntry) :
    ∀ (db : DB) (ban : BanEntry),
      l.filter (fun b => b.user_id == uid) = [ban] →
      processBans rid uid now db l =
        if now < ban.banned_until then
          (Except.error ⟨403, banMessage (ban.banned_until - now)⟩, db)
        else
          (Except.ok (), pullBans db rid uid) := by
  induction l with
  | nil =>
    intro db ban h
    simp [List.filter_nil] at h
  | cons b t ih =>
    intro db ban h
    simp only [List.filter_cons] at h
    by_cases hb : (b.user_id == uid) = true
    · rw [if_pos hb] at h
      have hbe : b = ban := (List.cons_eq_cons.mp h).1
      have ht : t.filter (fun b => b.user_id == uid) = [] := (List.cons_eq_cons.mp h).2
      subst hbe
      rw [processBans_cons_match rid uid now db b t hb]
      by_cases hfut : now < b.banned_until
      · rw [if_pos hfut, if_pos hfut]
      · rw [if_neg hfut, if_neg hfut]
        exact processBans_no_match rid uid now t (pullBans db rid uid) ht
    · rw [if_neg hb] at h
      rw [processBans_cons_other rid uid now db b t hb]
      exact ih db ban h

theorem join_room_found (db : DB) (rid uid : String) (pw : Option String) (now : Nat)
    (room : Room) (hroom : findRoom db rid = some room) :
    join_room db rid uid pw now =
      (match processBans rid uid now db room.banned_users with
        | (Except.error e, db1) => (Except.error e, db1, [])
        | (Except.ok _, db1) => joinMembership db1 room rid uid pw) := by
  unfold join_room
  rw [hroom]

theorem join_room_notfound (db : DB) (rid uid : String) (pw : Option String) (now : Nat)
    (hroom : findRoom db rid = none) :
    join_room db rid uid pw now = (Except.error ⟨404, "Room not found"⟩, db, []) := by
  unfold join_room
  rw [hroom]

/-! ### Claim theorems -/

/-- C1: when a room's expiry timer fires, the handler re-fetches the room by
id.  If the room is absent the firing changes nothing and emits no events;
if it is present the room is deleted, all of its RoomMessages are deleted,
and exactly the room-expired and room-list-changed(expired) events are
emitted.  Consequently firing the timer a second time against the resulting
state is always a silent no-op, so the timer path deletes every room at most
once. -/
theorem timer_fire_deletes_once (db : DB) (rid : String) :
    (findRoom db rid = none → schedule_room_deletion_fire db rid = (db, [])) ∧
    (findRoom db rid ≠ none →
      findRoom (schedule_room_deletion_fire db rid).1 rid = none ∧
      (schedule_room_deletion_fire db rid).1.room_messages.filter
        (fun m => m.room_id == rid) = [] ∧
      (schedule_room_deletion_fire db rid).2 =
        [Event.roomExpired rid, Event.roomListUpdated "expired" rid]) ∧
    schedule_room_deletion_fire (schedule_room_deletion_fire db rid).1 rid =
      ((schedule_room_deletion_fire db rid).1, []) := by
  refine ⟨?_, ?_, ?_⟩
  · intro h
    simp [schedule_room_deletion_fire, h]
  · intro h
    cases hf : findRoom db rid with
    | none => exact absurd hf h
    | some room =>
      refine ⟨?_, ?_, ?_⟩
      · simp only [schedule_room_deletion_fire, hf]
        rw [findRoom_deleteRoomMessages, findRoom_deleteRoom]
      · simp only [schedule_room_deletion_fire, hf]
        exact deleteRoomMessages_filter _ _
      · simp [schedule_room_deletion_fire, hf]
  · cases hf : findRoom db rid with
    | none =>
      simp [schedule_room_deletion_fire, hf]
    | some room =>
      have h1 : schedule_room_deletion_fire db rid =
          (deleteRoomMessages (deleteRoom db rid) rid,
            [Event.roomExpired rid, Event.roomListUpdated "expired" rid]) := by
        simp [schedule_room_deletion_fire, hf]
      rw [h1]
      have h2 : findRoom (deleteRoomMessages (deleteRoom db rid) rid) rid = none := by
        rw [findRoom_deleteRoomMessages, findRoom_deleteRoom]
      simp [schedule_room_deletion_fire, h2]

/-- C1 witness: firing the timer on a database where room `r1` is present
deletes it and its messages and emits the two expiry events. -/
theorem timer_fire_deletes_once_witness :
    findRoom dbA "r1" ≠ none ∧
    (findRoom (schedule_room_deletion_fire dbA "r1").1 "r1" = none ∧
      (schedule_room_deletion_fire dbA "r1").1.room_messages.filter
        (fun m => m.room_id == "r1") = [] ∧
      (schedule_room_deletion_fire dbA "r1").2 =
        [Event.roomExpired "r1", Event.roomListUpdated "expired" "r1"]) :=
  ⟨by decide, (timer_fire_deletes_once dbA "r1").2.1 (by decide)⟩

theorem join_member_ok (db : DB) (rid uid : String) (pw : Option String)
    (now : Nat) (room : Room)
    (hroom : findRoom db rid = some room)
    (hban : room.banned_users.filter (fun b => b.user_id == uid) = [])
    (hmem : uid ∈ room.members) :
    join_room db rid uid pw now =
      (Except.ok (), db, [Event.roomListUpdated "member_joined" rid]) := by
  rw [join_room_found db rid uid pw now room hroom,
    processBans_no_match rid uid now room.banned_users db hban]
  simp [joinMembership, hmem]

/-- C3: a user who is already in the room's member set and has no ban entry
joins successfully with any supplied password and regardless of capacity; the
database (in particular the member set) is unchanged and only the global
member-joined broadcast is emitted. -/
theorem join_already_member_idempotent (db : DB) (rid uid : String) (pw : Option String)
    (now : Nat) (room : Room)
    (hroom : findRoom db rid = some room)
    (hban : room.banned_users.filter (fun b => b.user_id == uid) = [])
    (hmem : room.members.contains uid = true) :
    join_room db rid uid pw now =
      (Except.ok (), db, [Event.roomListUpdated "member_joined" rid]) :=
  join_member_ok db rid uid pw now room hroom hban (by simpa using hmem)

/-- C3 witness: member `b` of the full room `r1` rejoins with a wrong
password while the room is at capacity, and succeeds without any change. -/
theorem join_already_member_idempotent_witness :
    findRoom dbA "r1" = some roomA ∧
    roomA.banned_users.filter (fun b => b.user_id == "b") = [] ∧
    roomA.members.contains "b" = true ∧
    roomA.password = some "pw" ∧
    capacityFull roomA.max_members roomA.members.length = true ∧
    join_room dbA "r1" "b" (some "WRONG") 500 =
      (Except.ok (), dbA, [Event.roomListUpdated "member_joined" "r1"]) :=
  ⟨by decide, by decide, by decide, by decide, by decide,
    join_already_member_idempotent dbA "r1" "b" (some "WRONG") 500 roomA
      (by decide) (by decide) (by decide)⟩

/-- C10: whenever a join request succeeds, the handler emits exactly the
global room-list-changed(member_joined) broadcast — including when the
requester was already a member and the persisted state did not change. -/
theorem join_success_emits_member_joined (db : DB) (rid uid : String) (pw : Option String)
    (now : Nat) (h : (join_room db rid uid pw now).1 = Except.ok ()) :
    (join_room db rid uid pw now).2.2 = [Event.roomListUpdated "member_joined" rid] := by
  cases hf : findRoom db rid with
  | none =>
    rw [join_room_notfound db rid uid pw now hf] at h
    simp at h
  | some room =>
    rw [join_room_found db rid uid pw now room hf] at h ⊢
    cases hpb : processBans rid uid now db room.banned_users with
    | mk res db1 =>
      cases res with
      | error e => rw [hpb] at h; simp at h
      | ok u =>
        rw [hpb] at h
        have h' : (joinMembership db1 room rid uid pw).1 = Except.ok () := h
        show (joinMembership db1 room rid uid pw).2.2 =
          [Event.roomListUpdated "member_joined" rid]
        unfold joinMembership at h' ⊢
        by_cases h1 : uid ∈ room.members
        · simp [h1]
        · by_cases h2 : passwordMismatch room.password pw = true
          · simp [h1, h2] at h'
          · by_cases h3 : capacityFull room.max_members room.members.length = true
            · simp [h1, h2, h3] at h'
            · simp [h1, h2, h3]

theorem joinMembership_db_cases (db : DB) (room : Room) (rid uid : String)
    (pw : Option String) :
    (joinMembership db room rid uid pw).2.1 = db ∨
    (joinMembership db room rid uid pw).2.1 = addToSetMember db rid uid := by
  unfold joinMembership
  by_cases h1 : room.members.contains uid = true
  · rw [if_pos h1]
    exact Or.inl rfl
  · rw [if_neg h1]
    by_cases h2 : passwordMismatch room.password pw = true
    · rw [if_pos h2]
      exact Or.inl rfl
    · rw [if_neg h2]
      by_cases h3 : capacityFull room.max_members room.members.length = true
      · rw [if_pos h3]
        exact Or.inl rfl
      · rw [if_neg h3]
        exact Or.inr rfl

/-- C2: a join request by a user with exactly one ban entry in the room
either fails with a 403 carrying the remaining ban time while leaving the
database untouched (`banned_until` still in the future), or — once
`banned_until` has passed — removes the user's ban entries from the persisted
room and proceeds to the ordinary membership phase of the join, so whatever
the final database is, the found room no longer has a ban entry for the
user. -/
theorem join_ban_rule (db : DB) (rid uid : String) (pw : Option String) (now : Nat)
    (room : Room) (ban : BanEntry)
    (hroom : findRoom db rid = some room)
    (hban : room.banned_users.filter (fun b => b.user_id == uid) = [ban]) :
    (now < ban.banned_until →
      join_room db rid uid pw now =
        (Except.error ⟨403, banMessage (ban.banned_until - now)⟩, db, [])) ∧
    (ban.banned_until ≤ now →
      join_room db rid uid pw now = joinMembership (pullBans db rid uid) room rid uid pw ∧
      ∀ r', findRoom (join_room db rid uid pw now).2.1 rid = some r' →
        r'.banned_users.filter (fun b => b.user_id == uid) = []) := by
  constructor
  · intro hfut
    rw [join_room_found db rid uid pw now room hroom,
      processBans_single rid uid now room.banned_users db ban hban]
    rw [if_pos hfut]
  · intro hexp
    have hnfut : ¬ now < ban.banned_until := not_lt.mpr hexp
    have hj : join_room db rid uid pw now =
        joinMembership (pullBans db rid uid) room rid uid pw := by
      rw [join_room_found db rid uid pw now room hroom,
        processBans_single rid uid now room.banned_users db ban hban]
      rw [if_neg hnfut]
    refine ⟨hj, ?_⟩
    intro r' hr'
    rw [hj] at hr'
    have hp : findRoom (pullBans db rid uid) rid =
        some { room with
          banned_users := room.banned_users.filter (fun b => !(b.user_id == uid)) } := by
      unfold pullBans
      exact findRoom_updateRoom_some _ (fun r => rfl) hroom
    rcases joinMembership_db_cases (pullBans db rid uid) room rid uid pw with hdb | hdb
    · rw [hdb, hp] at hr'
      cases hr'
      exact filter_filter_not _ _
    · rw [hdb] at hr'
      have ha : findRoom (addToSetMember (pullBans db rid uid) rid uid) rid =
          some { room with
            banned_users := room.banned_users.filter (fun b => !(b.user_id == uid)),
            members :=
              if room.members.contains uid then room.members
              else room.members ++ [uid] } := by
        unfold addToSetMember
        exact findRoom_updateRoom_some
          (fun r =>
            { r with members :=
                if r.members.contains uid then r.members else r.members ++ [uid] })
          (fun r => rfl) hp
      rw [ha] at hr'
      cases hr'
      exact filter_filter_not _ _

/-- C2 witness: user `c`, banned in `r1` until time 1000, attempts to join at
time 500 and is refused with the remaining 8m 20s, the database unchanged. -/
theorem join_ban_rule_witness :
    500 < 1000 ∧
    join_room dbA "r1" "c" none 500 =
      (Except.error ⟨403, banMessage (1000 - 500)⟩, dbA, []) :=
  ⟨by decide,
    (join_ban_rule dbA "r1" "c" none 500 roomA ⟨"c", 1000⟩
      (by decide) (by decide)).1 (by decide)⟩

theorem kick_user_found (db : DB) (rid aid target : String) (now : Nat) (room : Room)
    (hroom : findRoom db rid = some room) :
    kick_user db rid aid target now =
      (if !(room.admin_id == aid) then
        (Except.error ⟨403, "Only admin can kick users"⟩, db, [])
      else if !(room.members.contains target) then
        (Except.error ⟨400, "User not in room"⟩, db, [])
      else if target == aid then
        (Except.error ⟨400, "Cannot kick yourself"⟩, db, [])
      else
        (Except.ok
          ((db.room_messages.filter
              (fun m => m.room_id == rid && m.user_id == target)).length, now + 300),
          updateRoom
            { db with room_messages :=
                db.room_messages.filter (fun m => !(m.room_id == rid && m.user_id == target)) }
            rid
            (fun r =>
              { r with members := r.members.filter (fun m => !(m == target)),
                       banned_users := r.banned_users ++ [⟨target, now + 300⟩] }),
          [Event.userKicked rid target (now + 300),
           Event.roomListUpdated "member_kicked" rid,
           Event.messagesCleared rid target])) := by
  unfold kick_user
  rw [hroom]

/-- C4: kicking on an existing room fails with 403 Forbidden when the
requester is not the current admin, with 400 InvalidState when the target is
not a member or equals the admin; when all preconditions hold it deletes
every RoomMessage authored by the target in that room, removes the target
from the member set, appends a ban entry expiring exactly 300 seconds (5
minutes) after the kick time, returns the count of deleted messages together
with the ban expiry, and emits the kicked, member-kicked and
messages-cleared events. -/
theorem kick_rule (db : DB) (rid aid target : String) (now : Nat) (room : Room)
    (hroom : findRoom db rid = some room) :
    (room.admin_id ≠ aid →
      kick_user db rid aid target now =
        (Except.error ⟨403, "Only admin can kick users"⟩, db, [])) ∧
    (room.admin_id = aid → target ∉ room.members →
      kick_user db rid aid target now =
        (Except.error ⟨400, "User not in room"⟩, db, [])) ∧
    (room.admin_id = aid → target ∈ room.members → target = aid →
      kick_user db rid aid target now =
        (Except.error ⟨400, "Cannot kick yourself"⟩, db, [])) ∧
    (room.admin_id = aid → target ∈ room.members → target ≠ aid →
      (kick_user db rid aid target now).1 =
        Except.ok
          ((db.room_messages.filter
              (fun m => m.room_id == rid && m.user_id == target)).length, now + 300) ∧
      (kick_user db rid aid target now).2.1.room_messages.filter
        (fun m => m.room_id == rid && m.user_id == target) = [] ∧
      findRoom (kick_user db rid aid target now).2.1 rid =
        some { room with members := room.members.filter (fun m => !(m == target)),
                         banned_users := room.banned_users ++ [⟨target, now + 300⟩] } ∧
      (kick_user db rid aid target now).2.2 =
        [Event.userKicked rid target (now + 300),
         Event.roomListUpdated "member_kicked" rid,
         Event.messagesCleared rid target]) := by
  rw [kick_user_found db rid aid target now room hroom]
  refine ⟨?_, ?_, ?_, ?_⟩
  · intro hne
    have hb : (!(room.admin_id == aid)) = true := by
      simp [hne]
    rw [if_pos hb]
  · intro hadm hmem
    have hb : (!(room.admin_id == aid)) = false := by
      simp [hadm]
    have hm : (!(room.members.contains target)) = true := by
      simp [hmem]
    rw [hb]
    rw [if_neg (by simp : ¬ (false = true)), if_pos hm]
  · intro hadm hmem hself
    have hb : (!(room.admin_id == aid)) = false := by
      simp [hadm]
    have hm : (!(room.members.contains target)) = false := by
      simp [hmem]
    have hs : (target == aid) = true := by
      simp [hself]
    rw [hb, hm]
    rw [if_neg (by simp : ¬ (false = true)), if_neg (by simp : ¬ (false = true)),
      if_pos hs]
  · intro hadm hmem hself
    have hb : (!(room.admin_id == aid)) = false := by
      simp [hadm]
    have hm : (!(room.members.contains target)) = false := by
      simp [hmem]
    have hs : (target == aid) = false := by
      simp [hself]
    rw [hb, hm, hs]
    rw [if_neg (by simp : ¬ (false = true)), if_neg (by simp : ¬ (false = true)),
      if_neg (by simp : ¬ (false = true))]
    refine ⟨rfl, ?_, ?_, rfl⟩
    · exact filter_filter_not _ _
    · exact findRoom_updateRoom_some
        (fun r =>
          { r with members := r.members.filter (fun m => !(m == target)),
                   banned_users := r.banned_users ++ [⟨target, now + 300⟩] })
        (fun r => rfl) hroom

/-- C4 witness: the admin `a` of room `r1` kicks member `b` at time 100: one
message of `b` is deleted, `b` is removed from the members and banned until
400, and the three kick events are emitted. -/
theorem kick_rule_witness :
    roomA.admin_id = "a" ∧ "b" ∈ roomA.members ∧ "b" ≠ "a" ∧
    ((kick_user dbA "r1" "a" "b" 100).1 =
      Except.ok
        ((dbA.room_messages.filter
            (fun m => m.room_id == "r1" && m.user_id == "b")).length, 100 + 300) ∧
      (kick_user dbA "r1" "a" "b" 100).2.1.room_messages.filter
        (fun m => m.room_id == "r1" && m.user_id == "b") = [] ∧
      findRoom (kick_user dbA "r1" "a" "b" 100).2.1 "r1" =
        some { roomA with members := roomA.members.filter (fun m => !(m == "b")),
                          banned_users := roomA.banned_users ++ [⟨"b", 100 + 300⟩] } ∧
      (kick_user dbA "r1" "a" "b" 100).2.2 =
        [Event.userKicked "r1" "b" (100 + 300),
         Event.roomListUpdated "member_kicked" "r1",
         Event.messagesCleared "r1" "b"]) :=
  ⟨by decide, by decide, by decide,
    (kick_rule dbA "r1" "a" "b" 100 roomA (by decide)).2.2.2
      (by decide) (by decide) (by decide)⟩

theorem leave_room_found (db : DB) (rid uid : String) (room : Room)
    (hroom : findRoom db rid = some room) :
    leave_room db rid uid =
      (if room.admin_id == uid then
        (Except.ok true, deleteRoomMessages (deleteRoom db rid) rid,
          [Event.roomDeleted rid, Event.roomListUpdated "deleted" rid])
      else
        (Except.ok false, pullMember db rid uid,
          [Event.roomListUpdated "member_left" rid])) := by
  unfold leave_room
  rw [hroom]

theorem delete_room_found (db : DB) (rid uid : String) (room : Room)
    (hroom : findRoom db rid = some room) :
    delete_room db rid uid =
      (if !(room.admin_id == uid) then
        (Except.error ⟨403, "Only admin can delete room"⟩, db, [])
      else
        (Except.ok (), deleteRoomMessages (deleteRoom db rid) rid,
          [Event.roomDeleted rid])) := by
  unfold delete_room
  rw [hroom]

theorem get_room_notfound (db : DB) (rid : String) (t : Nat)
    (h : findRoom db rid = none) :
    get_room db rid t = (Except.error ⟨404, "Room not found"⟩, db) := by
  unfold get_room
  rw [h]

/-- C5: leave by the current admin deletes the room and all of its
RoomMessages and returns the room-deleted flag as true; leave by a non-admin
member only removes that user from the member set, leaves the room (and the
messages) in existence, and returns the flag as false; explicit admin delete
likewise removes the room and leaves zero RoomMessages for that room id.
After admin leave or admin delete, a get of the room at any time reports 404
NotFound. -/
theorem leave_delete_rule (db : DB) (rid uid : String) (room : Room)
    (hroom : findRoom db rid = some room) :
    (room.admin_id = uid →
      (leave_room db rid uid).1 = Except.ok true ∧
      findRoom (leave_room db rid uid).2.1 rid = none ∧
      (leave_room db rid uid).2.1.room_messages.filter (fun m => m.room_id == rid) = [] ∧
      (leave_room db rid uid).2.2 =
        [Event.roomDeleted rid, Event.roomListUpdated "deleted" rid] ∧
      (∀ t, (get_room (leave_room db rid uid).2.1 rid t).1 =
        Except.error ⟨404, "Room not found"⟩)) ∧
    (room.admin_id ≠ uid →
      (leave_room db rid uid).1 = Except.ok false ∧
      findRoom (leave_room db rid uid).2.1 rid =
        some { room with members := room.members.filter (fun m => !(m == uid)) } ∧
      (leave_room db rid uid).2.1.room_messages = db.room_messages ∧
      (leave_room db rid uid).2.2 = [Event.roomListUpdated "member_left" rid]) ∧
    (room.admin_id = uid →
      (delete_room db rid uid).1 = Except.ok () ∧
      findRoom (delete_room db rid uid).2.1 rid = none ∧
      (delete_room db rid uid).2.1.room_messages.filter (fun m => m.room_id == rid) = [] ∧
      (∀ t, (get_room (delete_room db rid uid).2.1 rid t).1 =
        Except.error ⟨404, "Room not found"⟩)) := by
  refine ⟨?_, ?_, ?_⟩
  · intro hadm
    have hb : (room.admin_id == uid) = true := by simp [hadm]
    rw [leave_room_found db rid uid room hroom, if_pos hb]
    have hnone : findRoom (deleteRoomMessages (deleteRoom db rid) rid) rid = none := by
      rw [findRoom_deleteRoomMessages, findRoom_deleteRoom]
    refine ⟨rfl, hnone, deleteRoomMessages_filter _ _, rfl, ?_⟩
    intro t
    rw [get_room_notfound _ rid t hnone]
  · intro hadm
    have hb : (room.admin_id == uid) = false := by simp [hadm]
    rw [leave_room_found db rid uid room hroom, hb,
      if_neg (by simp : ¬ (false = true))]
    refine ⟨rfl, ?_, rfl, rfl⟩
    exact findRoom_updateRoom_some
      (fun r => { r with members := r.members.filter (fun m => !(m == uid)) })
      (fun r => rfl) hroom
  · intro hadm
    have hb : (!(room.admin_id == uid)) = false := by simp [hadm]
    rw [delete_room_found db rid uid room hroom, hb,
      if_neg (by simp : ¬ (false = true))]
    have hnone : findRoom (deleteRoomMessages (deleteRoom db rid) rid) rid = none := by
      rw [findRoom_deleteRoomMessages, findRoom_deleteRoom]
    refine ⟨rfl, hnone, deleteRoomMessages_filter _ _, ?_⟩
    intro t
    rw [get_room_notfound _ rid t hnone]

/-- C5 witness: admin `a` leaving room `r1` deletes it and its messages, the
flag is true, and a later get reports 404; and member `b` leaving only drops
`b` from the member set. -/
theorem leave_delete_rule_witness :
    roomA.admin_id = "a" ∧
    ((leave_room dbA "r1" "a").1 = Except.ok true ∧
      findRoom (leave_room dbA "r1" "a").2.1 "r1" = none ∧
      (leave_room dbA "r1" "a").2.1.room_messages.filter
        (fun m => m.room_id == "r1") = [] ∧
      (leave_room dbA "r1" "a").2.2 =
        [Event.roomDeleted "r1", Event.roomListUpdated "deleted" "r1"] ∧
      (∀ t, (get_room (leave_room dbA "r1" "a").2.1 "r1" t).1 =
        Except.error ⟨404, "Room not found"⟩)) ∧
    roomA.admin_id ≠ "b" ∧
    ((leave_room dbA "r1" "b").1 = Except.ok false ∧
      findRoom (leave_room dbA "r1" "b").2.1 "r1" =
        some { roomA with members := roomA.members.filter (fun m => !(m == "b")) } ∧
      (leave_room dbA "r1" "b").2.1.room_messages = dbA.room_messages ∧
      (leave_room dbA "r1" "b").2.2 = [Event.roomListUpdated "member_left" "r1"]) :=
  ⟨by decide,
    (leave_delete_rule dbA "r1" "a" roomA (by decide)).1 (by decide),
    by decide,
    (leave_delete_rule dbA "r1" "b" roomA (by decide)).2.1 (by decide)⟩

/-- C10 witness: the already-member rejoin of `b` into `r1` succeeds and
emits the member-joined broadcast. -/
theorem join_success_emits_member_joined_witness :
    (join_room dbA "r1" "b" (some "WRONG") 500).1 = Except.ok () ∧
    (join_room dbA "r1" "b" (some "WRONG") 500).2.2 =
      [Event.roomListUpdated "member_joined" "r1"] :=
  ⟨by decide, join_success_emits_member_joined dbA "r1" "b" (some "WRONG") 500 (by decide)⟩

/-- C6: the startup reconciliation of a persisted room backfills a missing
`expires_at` to `created_at + 43200` seconds (12 hours); a room whose
(possibly backfilled) expiry is at or before the current time is deleted
immediately together with all of its RoomMessages and no timer is armed;
otherwise the room survives and a one-shot deletion timer targeting
`expires_at` is armed. -/
theorem startup_reconcile_rule (now : Nat) (db : DB) (room : Room)
    (hroom : findRoom db room.id = some room) :
    (room.expires_at = none → room.created_at + 43200 ≤ now →
      findRoom (reconcileRoom now db room).1 room.id = none ∧
      (reconcileRoom now db room).1.room_messages.filter
        (fun m => m.room_id == room.id) = [] ∧
      (reconcileRoom now db room).2 = []) ∧
    (room.expires_at = none → now < room.created_at + 43200 →
      findRoom (reconcileRoom now db room).1 room.id =
        some { room with expires_at := some (room.created_at + 43200) } ∧
      (reconcileRoom now db room).2 = [(room.id, room.created_at + 43200)]) ∧
    (∀ e, room.expires_at = some e → e ≤ now →
      findRoom (reconcileRoom now db room).1 room.id = none ∧
      (reconcileRoom now db room).1.room_messages.filter
        (fun m => m.room_id == room.id) = [] ∧
      (reconcileRoom now db room).2 = []) ∧
    (∀ e, room.expires_at = some e → now < e →
      reconcileRoom now db room = (db, [(room.id, e)])) := by
  refine ⟨?_, ?_, ?_, ?_⟩
  · intro hexp hle
    have hr : reconcileRoom now db room =
        (deleteRoomMessages
          (deleteRoom (setExpiresAt db room.id (room.created_at + 43200)) room.id)
          room.id, []) := by
      simp [reconcileRoom, hexp, hle]
    rw [hr]
    refine ⟨?_, deleteRoomMessages_filter _ _, rfl⟩
    rw [findRoom_deleteRoomMessages, findRoom_deleteRoom]
  · intro hexp hlt
    have hnle : ¬ room.created_at + 43200 ≤ now := not_le.mpr hlt
    have hr : reconcileRoom now db room =
        (setExpiresAt db room.id (room.created_at + 43200),
          [(room.id, room.created_at + 43200)]) := by
      simp [reconcileRoom, hexp, hnle]
    rw [hr]
    refine ⟨?_, rfl⟩
    unfold setExpiresAt
    exact findRoom_updateRoom_some
      (fun r => { r with expires_at := some (room.created_at + 43200) })
      (fun r => rfl) hroom
  · intro e hexp hle
    have hr : reconcileRoom now db room =
        (deleteRoomMessages (deleteRoom db room.id) room.id, []) := by
      simp [reconcileRoom, hexp, hle]
    rw [hr]
    refine ⟨?_, deleteRoomMessages_filter _ _, rfl⟩
    rw [findRoom_deleteRoomMessages, findRoom_deleteRoom]
  · intro e hexp hlt
    have hnle : ¬ e ≤ now := not_le.mpr hlt
    simp [reconcileRoom, hexp, hnle]

/-- C6 witness: reconciling the legacy room (no `expires_at`, created at 10)
at time 50 backfills `expires_at = 43210` and arms a timer for it; the same
room reconciled at time 50000 (past its backfilled expiry) is deleted with
its messages and no timer is armed. -/
theorem startup_reconcile_rule_witness :
    (findRoom (reconcileRoom 50 dbLegacy roomLegacy).1 "rL" =
      some { roomLegacy with expires_at := some 43210 } ∧
      (reconcileRoom 50 dbLegacy roomLegacy).2 = [("rL", 43210)]) ∧
    (findRoom (reconcileRoom 50000 dbLegacy roomLegacy).1 "rL" = none ∧
      (reconcileRoom 50000 dbLegacy roomLegacy).1.room_messages.filter
        (fun m => m.room_id == "rL") = [] ∧
      (reconcileRoom 50000 dbLegacy roomLegacy).2 = []) :=
  ⟨(startup_reconcile_rule 50 dbLegacy roomLegacy (by decide)).2.1 (by decide) (by decide),
    (startup_reconcile_rule 50000 dbLegacy roomLegacy (by decide)).1 (by decide) (by decide)⟩

theorem get_room_found (db : DB) (rid : String) (now : Nat) (room : Room)
    (hroom : findRoom db rid = some room) :
    get_room db rid now =
      (match room.expires_at with
        | some exp =>
          if exp ≤ now then
            (Except.error ⟨410, "Room has expired"⟩,
              deleteRoomMessages (deleteRoom db rid) rid)
          else (Except.ok room, db)
        | none => (Except.ok room, db)) := by
  unfold get_room
  rw [hroom]

/-- C9: fetching a room whose stored `expires_at` is at or before the current
time does not return the room: the get deletes the room document and all of
its RoomMessages and fails with 410 "Room has expired". -/
theorem get_expired_rule (db : DB) (rid : String) (now : Nat) (room : Room) (e : Nat)
    (hroom : findRoom db rid = some room) (hexp : room.expires_at = some e)
    (hle : e ≤ now) :
    (get_room db rid now).1 = Except.error ⟨410, "Room has expired"⟩ ∧
    findRoom (get_room db rid now).2 rid = none ∧
    (get_room db rid now).2.room_messages.filter (fun m => m.room_id == rid) = [] := by
  have hr : get_room db rid now =
      (Except.error ⟨410, "Room has expired"⟩,
        deleteRoomMessages (deleteRoom db rid) rid) := by
    rw [get_room_found db rid now room hroom, hexp]
    simp [hle]
  rw [hr]
  refine ⟨rfl, ?_, deleteRoomMessages_filter _ _⟩
  rw [findRoom_deleteRoomMessages, findRoom_deleteRoom]

/-- C9 witness: getting room `rx` (expired at 5) at time 100 yields 410 and
deletes the room and its messages. -/
theorem get_expired_rule_witness :
    ((get_room dbOpen "rx" 100).1 = Except.error ⟨410, "Room has expired"⟩ ∧
      findRoom (get_room dbOpen "rx" 100).2 "rx" = none ∧
      (get_room dbOpen "rx" 100).2.room_messages.filter
        (fun m => m.room_id == "rx") = []) :=
  get_expired_rule dbOpen "rx" 100 roomOpen 5 (by decide) (by decide) (by decide)

/-- C8 counterexample: room `rx` is still present in the store with
`expires_at = 5`, which is at or before the current time 100, yet user `b`'s
join request at time 100 succeeds and even adds `b` to the member set — the
claim that a join against such a room does not succeed is false on the code,
which performs no expiry check in the join handler. -/
theorem join_expired_room_cex :
    findRoom dbOpen "rx" = some roomOpen ∧
    roomOpen.expires_at = some 5 ∧
    5 ≤ 100 ∧
    (join_room dbOpen "rx" "b" none 100).1 = Except.ok () ∧
    findRoom (join_room dbOpen "rx" "b" none 100).2.1 "rx" =
      some { roomOpen with members := roomOpen.members ++ ["b"] } := by
  refine ⟨by decide, by decide, by decide, by decide, by decide⟩

/-- C8 amended: the join handler performs no expiry check, so a room still
present in the store with `expires_at` at or before the current time can
still be joined successfully (here: by a non-banned existing member with any
password); expired rooms are removed only by the get handler, the startup
reconciliation, or the deletion timer. -/
theorem join_ignores_expiry (db : DB) (rid uid : String) (pw : Option String) (now : Nat)
    (room : Room) (e : Nat)
    (hroom : findRoom db rid = some room)
    (hexp : room.expires_at = some e) (hle : e ≤ now)
    (hban : room.banned_users.filter (fun b => b.user_id == uid) = [])
    (hmem : uid ∈ room.members) :
    (join_room db rid uid pw now).1 = Except.ok () := by
  rw [join_member_ok db rid uid pw now room hroom hban hmem]

/-- C8 amended witness: member `a` successfully rejoins the expired-but-
present room `rx` at time 100. -/
theorem join_ignores_expiry_witness :
    roomOpen.expires_at = some 5 ∧ 5 ≤ 100 ∧
    (join_room dbOpen "rx" "a" none 100).1 = Except.ok () :=
  ⟨by decide, by decide,
    join_ignores_expiry dbOpen "rx" "a" none 100 roomOpen 5
      (by decide) (by decide) (by decide) (by decide) (by decide)⟩

/-- C7 is violated on the rebind-to-same-connection path: with user `u1`
bound to live connection `s1`, a `set_nickname` on `s1` itself re-binding
`u1` takes the eviction branch — the handler compares the stored sid only
against `user_sessions` membership, never against the current sid — so it
force-disconnects `s1`, the caller's own connection, and the cascaded
disconnect handler even destroys `s1`'s session entry; this is not a no-op
beyond refreshing the nickname.  For contrast, the last two conjuncts show
the claimed (and correct) stale-session eviction when `u1` binds from a
different connection `s2`: `s1` is force-closed and the binding afterwards
points to `s2`. -/
theorem rebind_same_connection_disconnects :
    (set_nickname pStA "s1" (some "nick2") (some "u1")).2.head? =
      some (PEffect.forceDisconnect "s1") ∧
    assocGet (set_nickname pStA "s1" (some "nick2") (some "u1")).1.user_sessions "s1" =
      none ∧
    (set_nickname pStA "s2" (some "nick2") (some "u1")).2.head? =
      some (PEffect.forceDisconnect "s1") ∧
    assocGet (set_nickname pStA "s2" (some "nick2") (some "u1")).1.connected_users
      (some "u1") = some "s2" := by
  refine ⟨by decide, by decide, by decide, by decide⟩

end Ghostly
